import Mathlib

/-!
Verification of the batch driver `scripts/run_synthseg.py` from the
`pmacsSynthSeg` repository.  The script wraps a containerized brain
segmentation tool: it validates dataset metadata, resolves a brain mask
for each anatomical image, skips already-processed items, invokes the
external tool once per item, and renames the tool outputs into BIDS
derivative file names.

The embedding below models the pure bookkeeping logic of the script:
string processing (the CSV-to-TSV converter, the anatomical file name
regex, the mask glob), the `dataset_description.json` update, and the
per-item control flow.  Filesystem state is passed explicitly: the set
of existing files is a list of path strings, and each operation returns
the outcome that the script would produce (`Except` for uncaught Python
exceptions).
-/

set_option autoImplicit false

namespace SynthSeg

/-! ## Basic string helpers (Python semantics on `List Char`) -/

/-- Characters stripped by Python `str.rstrip()` (ASCII whitespace). -/
def isPySpace (c : Char) : Bool :=
  c = ' ' || c = '\t' || c = '\n' || c = '\r' || c = Char.ofNat 11 || c = Char.ofNat 12

/-- Python `str.rstrip()`: drop trailing whitespace characters. -/
def pyRstrip (s : String) : String :=
  ⟨(s.data.reverse.dropWhile isPySpace).reverse⟩

/-- Python `str.replace(c, d)` for single-character arguments. -/
def replChar (c d : Char) (s : String) : String :=
  ⟨s.data.map (fun x => if x = c then d else x)⟩

/-- Split a character list at newline characters; every chunk is a line
content without its terminating newline. -/
def splitLinesAux : List Char → List Char → List (List Char)
  | [], acc => [acc.reverse]
  | c :: rest, acc =>
    if c = '\n' then acc.reverse :: splitLinesAux rest []
    else splitLinesAux rest (c :: acc)

/-- The lines of a file as Python file iteration yields them, with the
terminating newline removed from each (`readline` followed by `rstrip`
never distinguishes a final line with and without a newline, so the
stripped-newline representation is faithful).  A trailing empty chunk
produced by a final newline is not a line. -/
def pyLines (s : String) : List String :=
  let chunks := splitLinesAux s.data []
  let chunks := if chunks.getLast? = some [] then chunks.dropLast else chunks
  chunks.map (fun l => ⟨l⟩)

/-- Concatenate lines, terminating every line with a newline, as the
write loop of `csv_to_bids_tsv` does. -/
def joinNl (lines : List String) : String :=
  String.join (lines.map (fun l => l ++ "\n"))

/-! ## `csv_to_bids_tsv` (script lines 143-163)

The Python function reads the header line, rstrips it, replaces spaces
with underscores and commas with tabs; each remaining line is rstripped
and has commas replaced with tabs; every line is written back followed
by a newline.  An empty input yields an empty header, hence the output
is a single newline. -/

def csv_to_bids_tsv (input : String) : String :=
  match pyLines input with
  | [] => "\n"
  | h :: rest =>
    let header := replChar ',' '\t' (replChar ' ' '_' (pyRstrip h))
    let body := rest.map (fun l => replChar ',' '\t' (pyRstrip l))
    joinNl (header :: body)

/-- The transformation claimed by the spec sentence, read literally:
in the header every space becomes an underscore and every comma a tab,
in every other line every comma becomes a tab, nothing else changes
(no stripping of trailing whitespace). -/
def csvClaimTransform (input : String) : String :=
  match pyLines input with
  | [] => "\n"
  | h :: rest =>
    let header := replChar ',' '\t' (replChar ' ' '_' h)
    let body := rest.map (fun l => replChar ',' '\t' l)
    joinNl (header :: body)

/-- The amended transformation: identical to the claimed one except
that each line first has its trailing whitespace stripped, mirroring
the `rstrip` calls in the source. -/
def csvAmendedTransform (input : String) : String :=
  match pyLines input with
  | [] => "\n"
  | h :: rest =>
    joinNl (replChar ',' '\t' (replChar ' ' '_' (pyRstrip h))
            :: rest.map (fun l => replChar ',' '\t' (pyRstrip l)))

/-! ## The anatomical file name regex (script line 243)

`re.match('(.*)_(\w+)\.nii\.gz$', input_anatomical)` anchors at both
ends: the name must end in the literal `.nii.gz`, and the part before
it must split as `prefix ++ "_" ++ word` with `word` nonempty and made
of word characters.  The leading group is greedy, so the split uses the
last underscore whose tail is a word.  `matchFrom` mirrors the
backtracking search of the engine on the part before `.nii.gz`. -/

/-- Python regex `\w` on the ASCII names this script handles. -/
def isWordChar (c : Char) : Bool :=
  c.isAlphanum || c = '_'

/-- Greedy match of `(.*)_(\w+)$` against a character list: prefer the
longest possible first group, i.e. the rightmost feasible underscore. -/
def matchFrom : List Char → Option (List Char × List Char)
  | [] => none
  | c :: rest =>
    match matchFrom rest with
    | some (p, w) => some (c :: p, w)
    | none =>
      if c = '_' && !rest.isEmpty && rest.all isWordChar then some ([], rest)
      else none

/-- The prefix/suffix split performed on each anatomical image name, or
`none` when the regex does not match (in which case the script crashes
on `match.group(1)`). -/
def pyMatchAnat (s : String) : Option (String × String) :=
  let ext := ".nii.gz".data
  if ext.isSuffixOf s.data then
    match matchFrom (s.data.take (s.data.length - ext.length)) with
    | some (p, w) => some (⟨p⟩, ⟨w⟩)
    | none => none
  else none

/-! ## The brain mask glob (script line 259)

`glob.glob(f"{mask_dir}/{prefix}*_desc-brain_mask.nii.gz")` returns the
existing files whose path relative to the mask dataset root is the
anatomical prefix, then any run of non-separator characters, then the
literal `_desc-brain_mask.nii.gz`.  Mask dataset contents are modelled
as the list of relative paths of its files, in the order glob returns
them; `os.path.relpath` then recovers exactly that relative path. -/

/-- Whether a relative path matches the glob pattern
`prefix*_desc-brain_mask.nii.gz` (the `*` does not cross `/`). -/
def maskGlobMatch (pre : String) (name : String) : Bool :=
  let suf := "_desc-brain_mask.nii.gz".data
  let cs := name.data
  pre.data.isPrefixOf cs &&
    (let rest := cs.drop pre.data.length
     decide (suf.length ≤ rest.length) &&
       rest.drop (rest.length - suf.length) = suf &&
       (rest.take (rest.length - suf.length)).all (fun c => c ≠ '/'))

/-- The glob result for a given anatomical prefix over the mask dataset
contents. -/
def brainMaskFiles (pre : String) (maskFiles : List String) : List String :=
  maskFiles.filter (maskGlobMatch pre)

/-! ## The segmentation label table (script lines 348-367)

The table is written verbatim from the dict literal `dseg_label_dict`;
Python dict literals preserve insertion order, so the write loop emits
the pairs in exactly this order. -/

def dseg_label_dict : List (Nat × String) :=
  [(0, "background"), (2, "left_cerebral_white_matter"), (3, "left_cerebral_cortex"),
   (4, "left_lateral_ventricle"), (5, "left_inferior_lateral_ventricle"),
   (7, "left_cerebellum_white_matter"), (8, "left_cerebellum_cortex"),
   (10, "left_thalamus"), (11, "left_caudate"), (12, "left_putamen"),
   (13, "left_pallidum"), (14, "3rd_ventricle"), (15, "4th_ventricle"),
   (16, "brain-stem"), (17, "left_hippocampus"), (18, "left_amygdala"),
   (24, "CSF"), (26, "left_accumbens_area"), (28, "left_ventral_DC"),
   (41, "right_cerebral_white_matter"), (42, "right_cerebral_cortex"),
   (43, "right_lateral_ventricle"), (44, "right_inferior_lateral_ventricle"),
   (46, "right_cerebellum_white_matter"), (47, "right_cerebellum_cortex"),
   (49, "right_thalamus"), (50, "right_caudate"), (51, "right_putamen"),
   (52, "right_pallidum"), (53, "right_hippocampus"), (54, "right_amygdala"),
   (58, "right_accumbens_area"), (60, "right_ventral_DC")]

/-- The lines of the generated `dseg.tsv`: the `index<TAB>name` header
followed by one `{index}\t{name}` row per dict entry, in dict order. -/
def dsegTsvLines : List String :=
  "index\tname" :: dseg_label_dict.map (fun p => toString p.1 ++ "\t" ++ p.2)

/-- Executable strict-ascending check for a list of label indices. -/
def strictlyAscending : List Nat → Bool
  | [] => true
  | [_] => true
  | a :: b :: r => a < b && strictlyAscending (b :: r)

/-! ## Dataset descriptors and the metadata updater (script lines 14-140)

A `dataset_description.json` is modelled by the fields the script
touches; `none` means the key is absent.  The `GeneratedBy` value can
additionally be JSON `null`, which the script treats differently from
an absent key, so it gets a three-way field type.  Uncaught Python
exceptions are modelled as `Except.error` with the exception kind and
message. -/

structure ContainerInfo where
  tag : String
  version : String
  gitRemote : Option String
deriving DecidableEq

structure GenEntry where
  name : String
  version : String
  codeURL : Option String
  containerType : String
  containerTag : String
deriving DecidableEq

inductive GBField where
  | absent
  | null
  | entries (l : List GenEntry)
deriving DecidableEq

structure Descriptor where
  name : Option String
  bidsVersion : Option String
  datasetType : Option String
  generatedBy : GBField
deriving DecidableEq

/-- The generator entry the script builds for the current container
(`gen_dict`, script lines 91-95; the container type is always
`singularity` on both branches of lines 86-89). -/
def genDict (info : ContainerInfo) : GenEntry :=
  { name := "SynthSeg", version := info.version, codeURL := info.gitRemote,
    containerType := "singularity", containerTag := info.tag }

/-- The de-duplication test of script line 82: an existing entry blocks
the append when its Name is SynthSeg and its container tag is the
current tag. -/
def gbMatches (info : ContainerInfo) (gb : GenEntry) : Bool :=
  gb.name == "SynthSeg" && gb.containerTag == info.tag

/-- `get_generated_by` (script lines 71-98): copy the existing list and
return it unchanged when it already holds a matching entry, else append
the current container entry.  `none` models the default argument. -/
def get_generated_by (info : ContainerInfo) (existing : Option (List GenEntry)) :
    List GenEntry :=
  match existing with
  | none => [genDict info]
  | some l => if l.any (gbMatches info) then l else l ++ [genDict info]

/-- `get_dataset_name` (script lines 14-37): `FileNotFoundError` when
the descriptor file is absent, `ValueError` when it lacks Name. -/
def get_dataset_name (desc : Option Descriptor) : Except String String :=
  match desc with
  | none => .error "FileNotFoundError: dataset_description.json not found in dataset path"
  | some d =>
    match d.name with
    | none => .error "ValueError: Dataset name not found in dataset_description.json"
    | some n => .ok n

/-- `update_output_dataset` (script lines 101-140) as a pure function
from the current output descriptor state to the new state, paired with
whether the descriptor file was (re)written.  The existing-descriptor
branch reads `Name` and `GeneratedBy`; a `KeyError` on either is caught
and re-raised as the `ValueError` of lines 139-140. -/
def update_output_dataset (inputDesc : Option Descriptor)
    (outputDesc : Option Descriptor) (info : ContainerInfo) :
    Except String (Descriptor × Bool) :=
  match get_dataset_name inputDesc with
  | .error e => .error e
  | .ok inputName =>
    match outputDesc with
    | none =>
      .ok ({ name := some (inputName ++ "_synthseg"), bidsVersion := some "1.8.0",
             datasetType := some "derivative",
             generatedBy := .entries (get_generated_by info none) }, true)
    | some d =>
      let generated_by :=
        match d.generatedBy with
        | .entries l => get_generated_by info (some l)
        | _ => get_generated_by info none
      match d.name with
      | none => .error "ValueError: Output dataset Name is required"
      | some _ =>
        match d.generatedBy with
        | .absent => .error "ValueError: Output dataset Name is required"
        | .null => .ok ({ d with generatedBy := .entries generated_by }, true)
        | .entries l =>
          if generated_by.length > l.length then
            .ok ({ d with generatedBy := .entries generated_by }, true)
          else .ok (d, false)

/-! ## Per-item control flow (script lines 233-429)

Each work item is processed against an environment: the item's relative
path, whether the anatomical file exists, the relative paths of the
files in the mask dataset, and the files already present in the output
dataset.  The outcome is either an uncaught exception (`Except.error`),
a skip with the reported reason, or an invocation of the external tool
together with the output files the rename block then writes. -/

structure Config where
  gpu : Bool
  posteriors : Bool
  antsct : Bool
deriving DecidableEq

structure ItemEnv where
  name : String
  inputExists : Bool
  maskFiles : List String
  outputFiles : List String
deriving DecidableEq

inductive SkipReason where
  | missingInput
  | noMask
  | multipleMasks
  | outputExists
deriving DecidableEq

inductive ItemAction where
  | skipped (reason : SkipReason)
  | invoked (mask : String) (writes : List String)
deriving DecidableEq

/-- The files the rename block (script lines 310-429) writes into the
output dataset for one invocation, in write order. -/
def writesFor (cfg : Config) (pre suf : String) : List String :=
  [pre ++ "_space-SynthSeg_dseg.nii.gz",
   pre ++ "_space-SynthSeg_dseg.tsv",
   pre ++ "_space-SynthSeg_" ++ suf ++ ".nii.gz",
   pre ++ "_space-orig_dseg.nii.gz",
   pre ++ "_space-orig_dseg.tsv",
   pre ++ "_desc-qc.tsv",
   pre ++ "_desc-volumes.tsv"]
  ++ (if cfg.posteriors then
        [pre ++ "_space-SynthSeg_probseg.nii.gz",
         pre ++ "_space-SynthSeg_probseg.json",
         pre ++ "_space-orig_probseg.nii.gz",
         pre ++ "_space-orig_probseg.json"]
      else [])
  ++ (if cfg.antsct then
        [pre ++ "_space-orig_seg-antsct_dseg.nii.gz",
         pre ++ "_space-orig_seg-antsct_dseg.tsv"]
        ++ (if cfg.posteriors then
              ["CSF", "CGM", "WM", "SGM", "BS", "CBM"].map
                (fun lab => pre ++ "_space-orig_seg-antsct_label-" ++ lab ++ "_probseg.nii.gz")
            else [])
      else [])

/-- One iteration of the processing loop (script lines 233-429): check
input existence, split the name, glob for masks, skip on zero or
multiple matches, skip when the segmentation output already exists,
otherwise invoke the tool with the resolved mask and write the renamed
outputs.  A failed regex match is the uncaught `AttributeError` of
`match.group(1)` on `None`. -/
def processItem (cfg : Config) (env : ItemEnv) : Except String ItemAction :=
  if env.inputExists = false then .ok (.skipped .missingInput)
  else
    match pyMatchAnat env.name with
    | none => .error "AttributeError: NoneType object has no attribute group"
    | some (pre, suf) =>
      match brainMaskFiles pre env.maskFiles with
      | [] => .ok (.skipped .noMask)
      | [m] =>
        if (pre ++ "_space-SynthSeg_dseg.nii.gz") ∈ env.outputFiles then
          .ok (.skipped .outputExists)
        else .ok (.invoked m (writesFor cfg pre suf))
      | _ :: _ :: _ => .ok (.skipped .multipleMasks)

/-- The batch loop: items are processed in order and an uncaught
exception aborts the whole run, leaving later items unprocessed. -/
def processBatch (cfg : Config) : List ItemEnv → Except String (List ItemAction)
  | [] => .ok []
  | e :: rest =>
    match processItem cfg e with
    | .error msg => .error msg
    | .ok a =>
      match processBatch cfg rest with
      | .error msg => .error msg
      | .ok acts => .ok (a :: acts)

/-- The run-level environment: whether the container runtime is on the
PATH, the two dataset descriptors, the container info, flags, and the
work items. -/
structure RunEnv where
  singularityFound : Bool
  inputDesc : Option Descriptor
  outputDesc : Option Descriptor
  info : ContainerInfo
  cfg : Config
  items : List ItemEnv

/-- The overall run (script lines 210-429): fail fast when the
container runtime is missing (line 210), then update the output
dataset metadata (line 230, which reads the input dataset name), then
process the items in order. -/
def runBatch (r : RunEnv) : Except String (Descriptor × List ItemAction) :=
  if r.singularityFound = false then
    .error "RuntimeError: singularity executable not found"
  else
    match update_output_dataset r.inputDesc r.outputDesc r.info with
    | .error e => .error e
    | .ok (d, _) =>
      match processBatch r.cfg r.items with
      | .error e => .error e
      | .ok acts => .ok (d, acts)

/-- Decidable equality on outcomes, so that concrete runs of the model
can be settled by evaluation. -/
instance {ε α : Type} [DecidableEq ε] [DecidableEq α] : DecidableEq (Except ε α) := fun a b =>
  match a, b with
  | .error e1, .error e2 =>
    if h : e1 = e2 then isTrue (by rw [h]) else isFalse (by intro hc; cases hc; exact h rfl)
  | .error _, .ok _ => isFalse (by intro hc; cases hc)
  | .ok _, .error _ => isFalse (by intro hc; cases hc)
  | .ok a1, .ok a2 =>
    if h : a1 = a2 then isTrue (by rw [h]) else isFalse (by intro hc; cases hc; exact h rfl)

/-- Default configuration: no GPU, no posteriors, no antsct outputs. -/
def cfg0 : Config := { gpu := false, posteriors := false, antsct := false }

/-- The worked example of the spec: input image `sub-01_T1w.nii.gz`,
mask dataset holding exactly `sub-01_space-T1w_desc-brain_mask.nii.gz`,
empty output dataset. -/
def exampleEnv : ItemEnv :=
  { name := "sub-01_T1w.nii.gz"
    inputExists := true
    maskFiles := ["sub-01_space-T1w_desc-brain_mask.nii.gz"]
    outputFiles := [] }

/-- An anatomical path that exists on disk but has no underscore before
the `.nii.gz` extension, so the prefix regex does not match it. -/
def unmatchedEnv : ItemEnv :=
  { name := "T1w.nii.gz"
    inputExists := true
    maskFiles := []
    outputFiles := [] }

/-- A container info record as `singularity inspect` reports it for
this pipeline container. -/
def infoX : ContainerInfo :=
  { tag := "cookpa/synthseg-mask:0.4.1"
    version := "0.4.1"
    gitRemote := some "https://github.com/ftdc-picsl/pmacsSynthSeg" }

/-- A valid input dataset descriptor. -/
def inputDescX : Descriptor :=
  { name := some "myDataset"
    bidsVersion := some "1.8.0"
    datasetType := some "raw"
    generatedBy := .absent }

/-- An output dataset descriptor lacking the Name key. -/
def noNameDesc : Descriptor :=
  { name := none
    bidsVersion := some "1.8.0"
    datasetType := some "derivative"
    generatedBy := .entries [] }

/-- An item whose anatomical input file does not exist. -/
def missingEnv : ItemEnv :=
  { name := "sub-01_T1w.nii.gz"
    inputExists := false
    maskFiles := []
    outputFiles := [] }

/-- A run whose pre-flight conditions all hold but whose single work
item has an anatomical path not matching the prefix regex. -/
def preflightOkEnv : RunEnv :=
  { singularityFound := true
    inputDesc := some inputDescX
    outputDesc := none
    info := infoX
    cfg := cfg0
    items := [unmatchedEnv] }

/-! ## Claims -/

/-- C4 counterexample.  The claim reads `csv_to_bids_tsv` as a pure
per-character substitution, but the source rstrips every line first:
on a header with a trailing space the code deletes the space instead of
turning it into an underscore.  Moreover re-applying the code to its
own output can change it again, because a comma at end of line becomes
a trailing tab, which the second pass strips. -/
theorem csv_claim_counterexample :
    csv_to_bids_tsv "A,B \n1,2\n" ≠ csvClaimTransform "A,B \n1,2\n" ∧
    csv_to_bids_tsv (csv_to_bids_tsv "A,\n") ≠ csv_to_bids_tsv "A,\n" := by
  decide

/-- C4, amended: `csv_to_bids_tsv` first strips trailing whitespace
from every line, then replaces spaces with underscores and commas with
tabs in the header and commas with tabs in every body line; on the
spec example `"A B,C\n1,2\n"` the header becomes `A_B\tC` and the body
row `1\t2`, and applying the transformation to that output changes
nothing. -/
theorem csv_to_bids_tsv_amended :
    (∀ s, csv_to_bids_tsv s = csvAmendedTransform s) ∧
    csv_to_bids_tsv "A B,C\n1,2\n" = "A_B\tC\n1\t2\n" ∧
    csv_to_bids_tsv "A_B\tC\n1\t2\n" = "A_B\tC\n1\t2\n" := by
  refine ⟨fun s => ?_, by decide, by decide⟩
  unfold csv_to_bids_tsv csvAmendedTransform
  cases pyLines s <;> rfl

/-- C5.  The label table is fixed: 33 rows in total, of which 32 name
a structure other than background (`31- or 32-entry` counts the
non-background entries; this variant includes the CSF label, index 24,
so the count is 32).  Every label index has exactly one row, the rows
are in strictly ascending index order, and the row `0<TAB>background`
comes directly after the `index<TAB>name` header. -/
theorem dseg_label_table_shape :
    dseg_label_dict.length = 33 ∧
    (dseg_label_dict.filter (fun p => p.2 ≠ "background")).length = 32 ∧
    (24, "CSF") ∈ dseg_label_dict ∧
    (dseg_label_dict.map Prod.fst).Nodup ∧
    strictlyAscending (dseg_label_dict.map Prod.fst) = true ∧
    dsegTsvLines.length = dseg_label_dict.length + 1 ∧
    dsegTsvLines.take 2 = ["index\tname", "0\tbackground"] := by
  decide

/-- C6.  On the spec example the item resolves the single mask file and
the invocation writes exactly the seven advertised output files. -/
theorem example_item_outputs :
    processItem cfg0 exampleEnv = .ok (.invoked "sub-01_space-T1w_desc-brain_mask.nii.gz"
      ["sub-01_space-SynthSeg_dseg.nii.gz",
       "sub-01_space-SynthSeg_dseg.tsv",
       "sub-01_space-SynthSeg_T1w.nii.gz",
       "sub-01_space-orig_dseg.nii.gz",
       "sub-01_space-orig_dseg.tsv",
       "sub-01_desc-qc.tsv",
       "sub-01_desc-volumes.tsv"]) := by
  decide

/-- C9.  An anatomical path that exists but does not match the
`(.*)_(\w+).nii.gz` pattern makes the loop raise an uncaught
`AttributeError` (`match` is `None`), aborting the whole batch: the
following, well-formed item is never processed. -/
theorem unmatched_name_aborts_batch :
    unmatchedEnv.inputExists = true ∧
    pyMatchAnat unmatchedEnv.name = none ∧
    processBatch cfg0 [unmatchedEnv, exampleEnv] =
      .error "AttributeError: NoneType object has no attribute group" := by
  decide

/-- C1.  For an item whose input exists and whose name splits into
prefix and suffix: when the glob `{prefix}*_desc-brain_mask.nii.gz`
over the mask dataset yields exactly one file, the resolver proceeds
with that file (the invocation receives exactly that relative path);
when it yields zero matches the item is skipped with the not-found
report and the batch continues with the remaining items; when it
yields several matches the item is skipped with the ambiguity report.
Skips are never invocations, so the external tool is not run. -/
theorem mask_glob_resolution (cfg : Config) (env : ItemEnv) (pre suf : String)
    (hin : env.inputExists = true)
    (hm : pyMatchAnat env.name = some (pre, suf)) :
    (∀ m, brainMaskFiles pre env.maskFiles = [m] →
       (pre ++ "_space-SynthSeg_dseg.nii.gz") ∉ env.outputFiles →
       processItem cfg env = .ok (.invoked m (writesFor cfg pre suf))) ∧
    (brainMaskFiles pre env.maskFiles = [] →
       ∀ rest, processBatch cfg (env :: rest) =
         (processBatch cfg rest).map (fun acts => .skipped .noMask :: acts)) ∧
    (∀ m1 m2 ms, brainMaskFiles pre env.maskFiles = m1 :: m2 :: ms →
       processItem cfg env = .ok (.skipped .multipleMasks)) := by
  refine ⟨?_, ?_, ?_⟩
  · intro m hone hout
    unfold processItem
    simp [hin, hm, hone, hout]
  · intro hzero rest
    have hskip : processItem cfg env = .ok (.skipped .noMask) := by
      unfold processItem
      simp [hin, hm, hzero]
    have hstep : processBatch cfg (env :: rest) =
        match processItem cfg env with
        | .error msg => .error msg
        | .ok a =>
          match processBatch cfg rest with
          | .error msg => .error msg
          | .ok acts => .ok (a :: acts) := rfl
    rw [hstep, hskip]
    cases processBatch cfg rest <;> rfl
  · intro m1 m2 ms hmany
    unfold processItem
    simp [hin, hm, hmany]

/-- C1 witness: on the worked example the single glob match is used as
the mask passed to the invocation. -/
theorem mask_glob_resolution_instance :
    processItem cfg0 exampleEnv =
      .ok (.invoked "sub-01_space-T1w_desc-brain_mask.nii.gz"
        (writesFor cfg0 "sub-01" "T1w")) :=
  (mask_glob_resolution cfg0 exampleEnv "sub-01" "T1w" rfl (by decide)).1
    "sub-01_space-T1w_desc-brain_mask.nii.gz" (by decide) (by decide)

/-- C2.  A missing anatomical input file skips the item; an existing
final segmentation output file means the item yields a skip, never an
invocation; and after a successful invocation, re-running the same
item against the output dataset extended with the files that the
invocation wrote produces the output-exists skip, so the rerun invokes
nothing and writes nothing. -/
theorem skip_policy_idempotent (cfg : Config) (env : ItemEnv) :
    (env.inputExists = false → processItem cfg env = .ok (.skipped .missingInput)) ∧
    (∀ pre suf, env.inputExists = true → pyMatchAnat env.name = some (pre, suf) →
       (pre ++ "_space-SynthSeg_dseg.nii.gz") ∈ env.outputFiles →
       ∃ r, processItem cfg env = .ok (.skipped r)) ∧
    (∀ m w, processItem cfg env = .ok (.invoked m w) →
       processItem cfg { env with outputFiles := env.outputFiles ++ w } =
         .ok (.skipped .outputExists)) := by
  refine ⟨?_, ?_, ?_⟩
  · intro h
    unfold processItem
    simp [h]
  · intro pre suf hin hm hmem
    unfold processItem
    simp [hin, hm]
    cases hb : brainMaskFiles pre env.maskFiles with
    | nil => exact ⟨.noMask, rfl⟩
    | cons m1 rest =>
      cases rest with
      | nil => exact ⟨.outputExists, by simp [hmem]⟩
      | cons m2 ms => exact ⟨.multipleMasks, rfl⟩
  · intro m w h
    by_cases hin : env.inputExists = false
    · have hv : processItem cfg env = .ok (.skipped .missingInput) := by
        unfold processItem
        simp [hin]
      rw [hv] at h
      simp at h
    · have hin' : env.inputExists = true := by
        revert hin
        cases env.inputExists <;> simp
      cases hm : pyMatchAnat env.name with
      | none =>
        have hv : processItem cfg env =
            .error "AttributeError: NoneType object has no attribute group" := by
          unfold processItem
          simp [hin', hm]
        rw [hv] at h
        simp at h
      | some ps =>
        obtain ⟨pre, suf⟩ := ps
        cases hb : brainMaskFiles pre env.maskFiles with
        | nil =>
          have hv : processItem cfg env = .ok (.skipped .noMask) := by
            unfold processItem
            simp [hin', hm, hb]
          rw [hv] at h
          simp at h
        | cons m1 rest =>
          cases rest with
          | cons m2 ms =>
            have hv : processItem cfg env = .ok (.skipped .multipleMasks) := by
              unfold processItem
              simp [hin', hm, hb]
            rw [hv] at h
            simp at h
          | nil =>
            by_cases hmem : (pre ++ "_space-SynthSeg_dseg.nii.gz") ∈ env.outputFiles
            · have hv : processItem cfg env = .ok (.skipped .outputExists) := by
                unfold processItem
                simp [hin', hm, hb, hmem]
              rw [hv] at h
              simp at h
            · have hv : processItem cfg env =
                  .ok (.invoked m1 (writesFor cfg pre suf)) := by
                unfold processItem
                simp [hin', hm, hb, hmem]
              rw [hv] at h
              simp only [Except.ok.injEq, ItemAction.invoked.injEq] at h
              obtain ⟨hm1, hw⟩ := h
              unfold processItem
              simp [hin', hm, hb, ← hw, writesFor]

/-- C2 witness: a missing input is skipped, and on the worked example,
after one successful invocation the rerun is the output-exists skip. -/
theorem skip_policy_idempotent_instance :
    processItem cfg0 missingEnv = .ok (.skipped .missingInput) ∧
    processItem cfg0
        { exampleEnv with
          outputFiles := exampleEnv.outputFiles ++ writesFor cfg0 "sub-01" "T1w" } =
      .ok (.skipped .outputExists) :=
  ⟨(skip_policy_idempotent cfg0 missingEnv).1 rfl,
   (skip_policy_idempotent cfg0 exampleEnv).2.2
     "sub-01_space-T1w_desc-brain_mask.nii.gz" (writesFor cfg0 "sub-01" "T1w") (by decide)⟩

/-- The current container entry blocks its own de-duplication test. -/
lemma gbMatches_genDict (info : ContainerInfo) : gbMatches info (genDict info) = true := by
  simp [gbMatches, genDict]

/-- Appending the current container entry makes the de-duplication
test succeed on the resulting list. -/
lemma any_append_genDict (info : ContainerInfo) (l : List GenEntry) :
    (l ++ [genDict info]).any (gbMatches info) = true := by
  simp [List.any_append, gbMatches_genDict]

/-- After any successful metadata update the input dataset name was
readable, the output descriptor has a Name, and its GeneratedBy list
contains an entry matching the current container. -/
lemma update_ok_state (inputDesc st : Option Descriptor) (info : ContainerInfo)
    (d1 : Descriptor) (w1 : Bool)
    (h : update_output_dataset inputDesc st info = .ok (d1, w1)) :
    (∃ n, get_dataset_name inputDesc = .ok n) ∧
    (∃ nm, d1.name = some nm) ∧
    (∃ l, d1.generatedBy = .entries l ∧ l.any (gbMatches info) = true) := by
  cases hg : get_dataset_name inputDesc with
  | error e =>
    have hv : update_output_dataset inputDesc st info = .error e := by
      unfold update_output_dataset
      simp [hg]
    rw [hv] at h
    simp at h
  | ok inputName =>
    refine ⟨⟨inputName, rfl⟩, ?_⟩
    cases st with
    | none =>
      have hv : update_output_dataset inputDesc none info =
          .ok ({ name := some (inputName ++ "_synthseg"), bidsVersion := some "1.8.0",
                 datasetType := some "derivative",
                 generatedBy := .entries [genDict info] }, true) := by
        unfold update_output_dataset
        simp [hg, get_generated_by]
      rw [hv] at h
      simp only [Except.ok.injEq, Prod.mk.injEq] at h
      obtain ⟨hd, hw⟩ := h
      subst hd
      exact ⟨⟨_, rfl⟩, ⟨[genDict info], rfl, by simp [gbMatches_genDict]⟩⟩
    | some d =>
      cases hn : d.name with
      | none =>
        have hv : update_output_dataset inputDesc (some d) info =
            .error "ValueError: Output dataset Name is required" := by
          unfold update_output_dataset
          simp [hg, hn]
        rw [hv] at h
        simp at h
      | some nm =>
        cases hgb : d.generatedBy with
        | absent =>
          have hv : update_output_dataset inputDesc (some d) info =
              .error "ValueError: Output dataset Name is required" := by
            unfold update_output_dataset
            simp [hg, hn, hgb]
          rw [hv] at h
          simp at h
        | null =>
          have hv : update_output_dataset inputDesc (some d) info =
              .ok ({ d with generatedBy := .entries [genDict info] }, true) := by
            unfold update_output_dataset
            simp [hg, hn, hgb, get_generated_by]
          rw [hv] at h
          simp only [Except.ok.injEq, Prod.mk.injEq] at h
          obtain ⟨hd, hw⟩ := h
          subst hd
          exact ⟨⟨nm, hn⟩, ⟨[genDict info], rfl, by simp [gbMatches_genDict]⟩⟩
        | entries l =>
          by_cases hany : l.any (gbMatches info) = true
          · have hv : update_output_dataset inputDesc (some d) info = .ok (d, false) := by
              unfold update_output_dataset
              simp [hg, hn, hgb, get_generated_by, hany]
            rw [hv] at h
            simp only [Except.ok.injEq, Prod.mk.injEq] at h
            obtain ⟨hd, hw⟩ := h
            subst hd
            exact ⟨⟨nm, hn⟩, ⟨l, hgb, hany⟩⟩
          · have hany' : l.any (gbMatches info) = false := by
              revert hany
              cases l.any (gbMatches info) <;> simp
            have hv : update_output_dataset inputDesc (some d) info =
                .ok ({ d with generatedBy := .entries (l ++ [genDict info]) }, true) := by
              unfold update_output_dataset
              simp [hg, hn, hgb, get_generated_by, hany']
            rw [hv] at h
            simp only [Except.ok.injEq, Prod.mk.injEq] at h
            obtain ⟨hd, hw⟩ := h
            subst hd
            exact ⟨⟨nm, hn⟩, ⟨l ++ [genDict info], rfl, any_append_genDict info l⟩⟩

/-- C3.  The generator entry is appended exactly when no existing entry
has the same name and container tag; an existing descriptor is
rewritten only when the generator list grew; and updating again with
the same container info after any successful update returns the same
descriptor without writing, so the GeneratedBy length is unchanged
after the first update. -/
theorem generated_by_update_idempotent :
    (∀ info l, (l.any (gbMatches info) = true → get_generated_by info (some l) = l) ∧
       (l.any (gbMatches info) = false →
          get_generated_by info (some l) = l ++ [genDict info])) ∧
    (∀ inputDesc d info l d2, d.generatedBy = .entries l →
       update_output_dataset inputDesc (some d) info = .ok (d2, true) →
       ∃ l2, d2.generatedBy = .entries l2 ∧ l.length < l2.length) ∧
    (∀ inputDesc st info d1 w1,
       update_output_dataset inputDesc st info = .ok (d1, w1) →
       update_output_dataset inputDesc (some d1) info = .ok (d1, false)) := by
  refine ⟨?_, ?_, ?_⟩
  · intro info l
    constructor <;> intro h <;> simp [get_generated_by, h]
  · intro inputDesc d info l d2 hgb h
    cases hg : get_dataset_name inputDesc with
    | error e =>
      have hv : update_output_dataset inputDesc (some d) info = .error e := by
        unfold update_output_dataset
        simp [hg]
      rw [hv] at h
      simp at h
    | ok inputName =>
      cases hn : d.name with
      | none =>
        have hv : update_output_dataset inputDesc (some d) info =
            .error "ValueError: Output dataset Name is required" := by
          unfold update_output_dataset
          simp [hg, hn]
        rw [hv] at h
        simp at h
      | some nm =>
        by_cases hany : l.any (gbMatches info) = true
        · have hv : update_output_dataset inputDesc (some d) info = .ok (d, false) := by
            unfold update_output_dataset
            simp [hg, hn, hgb, get_generated_by, hany]
          rw [hv] at h
          simp at h
        · have hany' : l.any (gbMatches info) = false := by
            revert hany
            cases l.any (gbMatches info) <;> simp
          have hv : update_output_dataset inputDesc (some d) info =
              .ok ({ d with generatedBy := .entries (l ++ [genDict info]) }, true) := by
            unfold update_output_dataset
            simp [hg, hn, hgb, get_generated_by, hany']
          rw [hv] at h
          simp only [Except.ok.injEq, Prod.mk.injEq] at h
          obtain ⟨hd, -⟩ := h
          subst hd
          exact ⟨l ++ [genDict info], rfl, by simp⟩
  · intro inputDesc st info d1 w1 h
    obtain ⟨⟨n, hg⟩, ⟨nm, hnm⟩, ⟨l, hgb, hany⟩⟩ :=
      update_ok_state inputDesc st info d1 w1 h
    unfold update_output_dataset
    simp [hg, hnm, hgb, get_generated_by, hany]

/-- C3 witness: creating the descriptor and then updating again with
the same container info changes nothing and reports no write. -/
theorem generated_by_update_idempotent_instance :
    update_output_dataset (some inputDescX)
        (some { name := some ("myDataset" ++ "_synthseg"), bidsVersion := some "1.8.0",
                datasetType := some "derivative",
                generatedBy := .entries [genDict infoX] }) infoX =
      .ok ({ name := some ("myDataset" ++ "_synthseg"), bidsVersion := some "1.8.0",
             datasetType := some "derivative",
             generatedBy := .entries [genDict infoX] }, false) :=
  generated_by_update_idempotent.2.2 (some inputDescX) none infoX _ true (by decide)

/-- C7.  When the output dataset has no descriptor, the updater
creates one whose Name is the input dataset name with `_synthseg`
appended, BIDSVersion 1.8.0, DatasetType derivative, and a GeneratedBy
list holding exactly the current container entry. -/
theorem descriptor_creation (inputDesc : Option Descriptor) (inputName : String)
    (info : ContainerInfo) (h : get_dataset_name inputDesc = .ok inputName) :
    update_output_dataset inputDesc none info =
      .ok ({ name := some (inputName ++ "_synthseg"), bidsVersion := some "1.8.0",
             datasetType := some "derivative",
             generatedBy := .entries [genDict info] }, true) := by
  unfold update_output_dataset
  simp [h, get_generated_by]

/-- C7 witness: creation at a concrete input dataset and container. -/
theorem descriptor_creation_instance :
    update_output_dataset (some inputDescX) none infoX =
      .ok ({ name := some ("myDataset" ++ "_synthseg"), bidsVersion := some "1.8.0",
             datasetType := some "derivative",
             generatedBy := .entries [genDict infoX] }, true) :=
  descriptor_creation (some inputDescX) "myDataset" infoX rfl

/-- C8 counterexample.  A run whose pre-flight checks all pass (the
same run with no items succeeds and creates the descriptor) aborts
during item processing when an item's file name does not match the
prefix regex: a per-item condition does abort the run. -/
theorem per_item_abort_counterexample :
    runBatch preflightOkEnv =
      .error "AttributeError: NoneType object has no attribute group" ∧
    runBatch { preflightOkEnv with items := [] } =
      .ok ({ name := some "myDataset_synthseg", bidsVersion := some "1.8.0",
             datasetType := some "derivative",
             generatedBy := .entries [genDict infoX] }, []) := by
  decide

/-- C8, amended.  The run raises before processing any item when the
container runtime executable is absent, when the input dataset lacks
its descriptor, or when the descriptor lacks a Name; and the per-item
skip conditions (missing input, zero or multiple masks, existing
output) never abort the run: a skipped item lets the batch continue
with the remaining items.  (Other per-item failures, such as a file
name the prefix regex does not match, do abort, per the
counterexample.) -/
theorem fail_fast_preflight (r : RunEnv) :
    (r.singularityFound = false →
       runBatch r = .error "RuntimeError: singularity executable not found") ∧
    (r.singularityFound = true → r.inputDesc = none →
       runBatch r =
         .error "FileNotFoundError: dataset_description.json not found in dataset path") ∧
    (∀ d, r.singularityFound = true → r.inputDesc = some d → d.name = none →
       runBatch r =
         .error "ValueError: Dataset name not found in dataset_description.json") ∧
    (∀ cfg env rest reason, processItem cfg env = .ok (.skipped reason) →
       processBatch cfg (env :: rest) =
         (processBatch cfg rest).map (fun acts => .skipped reason :: acts)) := by
  refine ⟨?_, ?_, ?_, ?_⟩
  · intro h
    unfold runBatch
    simp [h]
  · intro hs hnone
    unfold runBatch update_output_dataset get_dataset_name
    simp [hs, hnone]
  · intro d hs hsome hname
    unfold runBatch update_output_dataset get_dataset_name
    simp [hs, hsome, hname]
  · intro cfg env rest reason h
    have hstep : processBatch cfg (env :: rest) =
        match processItem cfg env with
        | .error msg => .error msg
        | .ok a =>
          match processBatch cfg rest with
          | .error msg => .error msg
          | .ok acts => .ok (a :: acts) := rfl
    rw [hstep, h]
    cases processBatch cfg rest <;> rfl

/-- C8 witness: with the runtime absent the run fails fast with the
runtime error. -/
theorem fail_fast_preflight_instance :
    runBatch { preflightOkEnv with singularityFound := false } =
      .error "RuntimeError: singularity executable not found" :=
  (fail_fast_preflight { preflightOkEnv with singularityFound := false }).1 rfl

/-- C10.  An existing output descriptor lacking the Name key or the
GeneratedBy key makes the updater raise the ValueError instead of
adding the generator entry; and an error raised by the updater aborts
the run (it propagates out of `runBatch` untouched). -/
theorem missing_keys_value_error :
    (∀ (inputDesc : Option Descriptor) (n : String) (d : Descriptor)
       (info : ContainerInfo),
       get_dataset_name inputDesc = .ok n →
       d.name = none ∨ d.generatedBy = .absent →
       update_output_dataset inputDesc (some d) info =
         .error "ValueError: Output dataset Name is required") ∧
    (∀ (r : RunEnv) (e : String), r.singularityFound = true →
       update_output_dataset r.inputDesc r.outputDesc r.info = .error e →
       runBatch r = .error e) := by
  constructor
  · intro inputDesc n d info hg h
    unfold update_output_dataset
    rcases h with h | h
    · simp [hg, h]
    · cases hn : d.name <;> simp [hg, h, hn]
  · intro r e hs hupd
    unfold runBatch
    simp [hs, hupd]

/-- C10 witness: a descriptor without Name triggers the ValueError. -/
theorem missing_keys_value_error_instance :
    update_output_dataset (some inputDescX) (some noNameDesc) infoX =
      .error "ValueError: Output dataset Name is required" :=
  missing_keys_value_error.1 (some inputDescX) "myDataset" noNameDesc infoX rfl (Or.inl rfl)

end SynthSeg
